import Mathlib

/-!
Verification of the multi-user access-control console: authentication with
lockout (auth.py), session registry (session.py), audit logging (logger.py),
admin facade (admin.py) and the command dispatcher (command_dispatcher.py).
Python dictionaries are modelled as association lists, the users.json file as
a field of the authenticator state together with a write counter, stdin as a
list of pending input lines, and the SHA256 digest as an explicit function
parameter (the code only ever compares digests for equality).
-/

namespace ACS

/-- Python `d.get(k)` / `d[k]` on a string-keyed dictionary. -/
def dictGet? {α : Type} (d : List (String × α)) (k : String) : Option α :=
  match d with
  | [] => none
  | (k1, v) :: t => if k1 = k then some v else dictGet? t k

/-- Python `d[k] = v`: replace the value at an existing key in place, else append. -/
def dictSet {α : Type} (d : List (String × α)) (k : String) (v : α) :
    List (String × α) :=
  match d with
  | [] => [(k, v)]
  | (k1, v1) :: t => if k1 = k then (k1, v) :: t else (k1, v1) :: dictSet t k v

/-- Python `del d[k]` (total: removes every binding of the key). -/
def dictDel {α : Type} (d : List (String × α)) (k : String) : List (String × α) :=
  d.filter (fun p => p.1 ≠ k)

/-- Python `k in d`. -/
def dictHas {α : Type} (d : List (String × α)) (k : String) : Bool :=
  (dictGet? d k).isSome

/-- Characters treated as whitespace by Python str.strip(). -/
def isPyWS (c : Char) : Bool :=
  c = ' ' ∨ c = '\t' ∨ c = '\n' ∨ c = '\x0d' ∨ c = '\x0b' ∨ c = '\x0c'

/-- Right strip: remove trailing whitespace. -/
def rstripChars (l : List Char) : List Char :=
  (l.reverse.dropWhile isPyWS).reverse

/-- Python `s.strip()` on a character list. -/
def pyStrip (l : List Char) : List Char :=
  rstripChars (l.dropWhile isPyWS)

/-- Python `s.strip()` on a string. -/
def pyStripStr (s : String) : String :=
  (pyStrip s.data).asString

/-- Scan for a character, carrying the absolute index; -1 when absent. -/
def pyFindAux (c : Char) : List Char → Nat → Int
  | [], _ => -1
  | a :: t, i => if a = c then (i : Int) else pyFindAux c t (i + 1)

/-- Python `s.find(c, start)` for a single-character needle. -/
def pyFindChar (s : List Char) (c : Char) (start : Int) : Int :=
  let st : Nat := if start < 0 then ((s.length : Int) + start).toNat
                  else min start.toNat s.length
  pyFindAux c (s.drop st) st

/-- Normalize a Python slice index against a sequence length. -/
def pyIdx (len : Nat) (i : Int) : Nat :=
  if i < 0 then ((len : Int) + i).toNat else min i.toNat len

/-- Python `s[a:b]`. -/
def pySlice {α : Type} (s : List α) (a b : Int) : List α :=
  (s.take (pyIdx s.length b)).drop (pyIdx s.length a)

/-- Python `s[a:]`. -/
def pySliceFrom {α : Type} (s : List α) (a : Int) : List α :=
  s.drop (pyIdx s.length a)

/-- Python `s.startswith(c)` for a one-character pattern. -/
def startsWithChar (l : List Char) (c : Char) : Bool :=
  match l with
  | [] => false
  | a :: _ => a = c

/-- Python `s.startswith(pre)`, char-list level (the byte-position based
String.startsWith of the core library does not reduce definitionally). -/
def startsWithStr (s pre : String) : Bool :=
  pre.data.isPrefixOf s.data

/-- Python `s.lower()` for the ASCII command strings of this program. -/
def pyLower (s : String) : String :=
  (s.data.map Char.toLower).asString

/-- Python `int(s)` restricted to the plain decimal grammar
(optional surrounding whitespace, optional sign, nonempty digit run). -/
def digitsToNat (l : List Char) : Option Nat :=
  if l = [] then none
  else if l.all (fun c => c.isDigit) then
    some (l.foldl (fun acc c => acc * 10 + (c.toNat - 48)) 0)
  else none

/-- Python `int(s)` returning none where Python raises ValueError. -/
def pyParseInt (s : String) : Option Int :=
  match pyStrip s.data with
  | '-' :: ds => (digitsToNat ds).map (fun n => -(n : Int))
  | '+' :: ds => (digitsToNat ds).map (fun n => (n : Int))
  | ds => (digitsToNat ds).map (fun n => (n : Int))

/-! ## auth.py: AuthModule -/

/-- One record of users.json: password hash, role and lock flag. -/
structure UserRecord where
  password_hash : String
  role : String
  locked : Bool
deriving Repr, DecidableEq

/-- State of AuthModule: the persisted users.json content, the in-memory
lockout map, and a counter of calls to the save routine. -/
structure AuthState where
  fileUsers : List (String × UserRecord)
  lockout_state : List (String × Nat)
  writes : Nat
deriving Repr, DecidableEq

/-- MAX_FAILED_ATTEMPTS in auth.py. -/
def MAX_FAILED_ATTEMPTS : Nat := 3

/-- AuthModule save routine: overwrite users.json and count the write. -/
def saveUsers (st : AuthState) (users : List (String × UserRecord)) : AuthState :=
  { st with fileUsers := users, writes := st.writes + 1 }

/-- Result of AuthModule.authenticate: next state plus the (bool, str) pair. -/
structure AuthResult where
  state : AuthState
  ok : Bool
  msg : String
deriving Repr, DecidableEq

/-- AuthModule.authenticate, with the SHA256 digest as parameter hashPassword. -/
def authenticate (hashPassword : String → String) (st : AuthState)
    (username password : String) : AuthResult :=
  let users := st.fileUsers
  match dictGet? users username with
  | none => ⟨st, false, "Invalid username or password"⟩
  | some user =>
    if user.locked then
      ⟨st, false, "Account is locked. Please contact an administrator."⟩
    else
      let failed_attempts := (dictGet? st.lockout_state username).getD 0
      if failed_attempts ≥ MAX_FAILED_ATTEMPTS then
        ⟨saveUsers st (dictSet users username { user with locked := true }),
          false, "Account locked due to too many failed login attempts."⟩
      else
        let password_hash := hashPassword password
        if user.password_hash ≠ password_hash then
          let st1 := { st with
            lockout_state := dictSet st.lockout_state username (failed_attempts + 1) }
          let remaining := MAX_FAILED_ATTEMPTS - (failed_attempts + 1)
          if remaining > 0 then
            ⟨st1, false, "Invalid password. " ++ toString remaining
              ++ " attempt(s) remaining."⟩
          else
            ⟨saveUsers st1 (dictSet users username { user with locked := true }),
              false, "Account locked due to too many failed login attempts."⟩
        else
          ⟨{ st with lockout_state := dictSet st.lockout_state username 0 },
            true, "Login successful"⟩

/-- AuthModule.get_user_role. -/
def get_user_role (st : AuthState) (username : String) : Option String :=
  (dictGet? st.fileUsers username).map (fun u => u.role)

/-- AuthModule.user_exists. -/
def user_exists (st : AuthState) (username : String) : Bool :=
  dictHas st.fileUsers username

/-- AuthModule.add_user. -/
def auth_add_user (hashPassword : String → String) (st : AuthState)
    (username password role : String) : AuthState × Bool × String :=
  if dictHas st.fileUsers username then
    (st, false, "User \x27" ++ username ++ "\x27 already exists")
  else if ¬ (role = "admin" ∨ role = "user") then
    (st, false, "Role must be \x27admin\x27 or \x27user\x27")
  else
    (saveUsers st (dictSet st.fileUsers username
      ⟨hashPassword password, role, false⟩),
     true, "User \x27" ++ username ++ "\x27 added successfully")

/-- AuthModule.remove_user. -/
def auth_remove_user (st : AuthState) (username : String) :
    AuthState × Bool × String :=
  if ¬ dictHas st.fileUsers username then
    (st, false, "User \x27" ++ username ++ "\x27 does not exist")
  else
    let st1 := saveUsers st (dictDel st.fileUsers username)
    let st2 := if dictHas st1.lockout_state username then
        { st1 with lockout_state := dictDel st1.lockout_state username }
      else st1
    (st2, true, "User \x27" ++ username ++ "\x27 removed successfully")

/-- AuthModule.unlock_user. -/
def auth_unlock_user (st : AuthState) (username : String) :
    AuthState × Bool × String :=
  match dictGet? st.fileUsers username with
  | none => (st, false, "User \x27" ++ username ++ "\x27 does not exist")
  | some user =>
    let st1 := saveUsers st
      (dictSet st.fileUsers username { user with locked := false })
    let st2 := if dictHas st1.lockout_state username then
        { st1 with lockout_state := dictSet st1.lockout_state username 0 }
      else st1
    (st2, true, "User \x27" ++ username ++ "\x27 unlocked successfully")

/-- AuthModule.change_password. -/
def auth_change_password (hashPassword : String → String) (st : AuthState)
    (username old_password new_password : String) : AuthState × Bool × String :=
  match dictGet? st.fileUsers username with
  | none => (st, false, "User does not exist")
  | some user =>
    if user.password_hash ≠ hashPassword old_password then
      (st, false, "Current password is incorrect")
    else
      (saveUsers st (dictSet st.fileUsers username
        { user with password_hash := hashPassword new_password }),
       true, "Password changed successfully")

/-! ## session.py: SessionManager
secrets.token_urlsafe(32) never yields the empty string, so the Python
truthiness test `if self.current_token` coincides with the `is not None`
test on every reachable state; the token pointer is modelled as an Option. -/

/-- One session record: identity, role and the two timestamps. -/
structure SessionData where
  username : String
  role : String
  created_at : String
  last_activity : String
deriving Repr, DecidableEq

/-- State of SessionManager: the token-indexed session dictionary and the
pointer to the current token. -/
structure SessionState where
  sessions : List (String × SessionData)
  current_token : Option String
deriving Repr, DecidableEq

/-- SessionManager.create_session; the fresh token and timestamp are external
inputs (secrets.token_urlsafe and datetime.now). -/
def create_session (st : SessionState) (token now username role : String) :
    SessionState :=
  { sessions := dictSet st.sessions token ⟨username, role, now, now⟩,
    current_token := some token }

/-- SessionManager internal current-session lookup. -/
def getCurrentSession (st : SessionState) : Option SessionData :=
  match st.current_token with
  | some t => dictGet? st.sessions t
  | none => none

/-- SessionManager.get_current_user. -/
def get_current_user (st : SessionState) : Option String :=
  (getCurrentSession st).map (fun d => d.username)

/-- SessionManager.get_current_role. -/
def get_current_role (st : SessionState) : Option String :=
  (getCurrentSession st).map (fun d => d.role)

/-- SessionManager.is_authenticated. -/
def is_authenticated (st : SessionState) : Bool :=
  match st.current_token with
  | some t => dictHas st.sessions t
  | none => false

/-- SessionManager.is_admin. -/
def is_admin (st : SessionState) : Bool :=
  get_current_role st = some "admin"

/-- SessionManager.update_activity with the fresh timestamp as input. -/
def update_activity (st : SessionState) (now : String) : SessionState :=
  match st.current_token with
  | none => st
  | some t =>
    match dictGet? st.sessions t with
    | none => st
    | some d =>
      { st with sessions := dictSet st.sessions t { d with last_activity := now } }

/-- SessionManager.end_session. -/
def end_session (st : SessionState) : SessionState :=
  match st.current_token with
  | none => st
  | some t => { sessions := dictDel st.sessions t, current_token := none }

/-- SessionManager.get_session_info (a copy of the record, or none). -/
def get_session_info (st : SessionState) : Option SessionData :=
  getCurrentSession st

/-! ## logger.py: Logger -/

/-- State of Logger: the lines of logs.txt (each including its trailing
newline) and the rows last written to logs.csv. -/
structure LoggerState where
  logFile : List String
  csvFile : List (List String)
deriving Repr, DecidableEq

/-- Logger write routine: format one entry and append the line, with the
timestamp as input; `username` of None or the empty string omits the
bracketed user field (Python truthiness). -/
def writeLog (st : LoggerState) (ts level : String) (username : Option String)
    (message : String) : LoggerState :=
  let user_str := match username with
    | some u => if u = "" then "" else " [" ++ u ++ "]"
    | none => ""
  { st with logFile := st.logFile ++
      ["[" ++ ts ++ "] [" ++ level ++ "]" ++ user_str ++ " " ++ message ++ "\n"] }

/-- Logger.log_login_attempt. -/
def log_login_attempt (st : LoggerState) (ts username : String) (success : Bool) :
    LoggerState :=
  let status := if success then "SUCCESS" else "FAILED"
  writeLog st ts "LOGIN" (some username)
    ("Login attempt " ++ status ++ " for user: " ++ username)

/-- Logger.log_command. -/
def log_command (st : LoggerState) (ts username command : String) (success : Bool) :
    LoggerState :=
  let status := if success then "SUCCESS" else "FAILED"
  writeLog st ts "COMMAND" (some username)
    ("Command \x27" ++ command ++ "\x27 executed - " ++ status)

/-- Logger.log_admin_action. -/
def log_admin_action (st : LoggerState) (ts username action : String)
    (target : Option String) : LoggerState :=
  let target_str := match target with
    | some t => if t = "" then "" else " on " ++ t
    | none => ""
  writeLog st ts "ADMIN" (some username) ("Admin action: " ++ action ++ target_str)

/-- Logger.view_logs: the whole file, or the tail slice `all_lines[-lines:]`. -/
def view_logs (st : LoggerState) (lines : Option Int) : String :=
  match lines with
  | none => String.join st.logFile
  | some n => String.join (pySliceFrom st.logFile (-n))

/-- Logger internal single-line parser for the CSV export: a line not starting
with an opening bracket is rejected; otherwise the bracketed fields are cut
out with find/slice exactly as in the source (no failure is possible, so the
except branch of the source is dead). -/
def parseLogLineChars (line : List Char) : Option (List (List Char)) :=
  if ¬ startsWithChar line '[' then none
  else
    let end_timestamp := pyFindChar line ']' 1
    let timestamp := pySlice line 1 end_timestamp
    let start_level := pyFindChar line '[' (end_timestamp + 1)
    let end_level := pyFindChar line ']' (start_level + 1)
    let level := pySlice line (start_level + 1) end_level
    let remaining := pyStrip (pySliceFrom line (end_level + 1))
    if startsWithChar remaining '[' then
      let end_username := pyFindChar remaining ']' 1
      let username := pySlice remaining 1 end_username
      let message := pyStrip (pySliceFrom remaining (end_username + 1))
      some [timestamp, level, username, message]
    else
      some [timestamp, level, [], remaining]

/-- Logger internal single-line parser, string level. -/
def parseLogLine (line : String) : Option (List String) :=
  (parseLogLineChars line.data).map (fun row => row.map List.asString)

/-- Logger internal log-to-CSV conversion: header row, then one row per line
that survives the strip / blank / comment filter and the parser. -/
def parseLogsToCsv (log_lines : List String) : List (List String) :=
  ["Timestamp", "Level", "Username", "Message"] ::
    log_lines.filterMap (fun l =>
      let line := pyStripStr l
      if line = "" ∨ startsWithStr line "===" then none
      else parseLogLine line)

/-- Logger.export_to_csv: convert and overwrite logs.csv (the pure model has
no I/O failure, so the except branch of the source is dead). -/
def export_to_csv (st : LoggerState) : LoggerState × Bool × String :=
  let csv_data := parseLogsToCsv st.logFile
  ({ st with csvFile := csv_data }, true, "Logs exported to logs.csv")

/-! ## admin.py: AdminTools and the shared system state
The dispatcher is wired to one SessionManager, one AuthModule and one Logger;
their states are bundled, together with the pending stdin lines consumed by
the interactive prompts of command_dispatcher.py. -/

/-- Combined state of the wired components plus pending stdin lines. -/
structure SysState where
  session : SessionState
  auth : AuthState
  log : LoggerState
  stdin : List String
deriving Repr, DecidableEq

/-- AdminTools.add_user: local validation, delegate, audit on success. -/
def admin_add_user (hashPassword : String → String) (ts : String) (st : SysState)
    (username password role current_user : String) : SysState × Bool × String :=
  if username = "" ∨ password = "" then
    (st, false, "Username and password are required")
  else if username.length < 3 then
    (st, false, "Username must be at least 3 characters")
  else if password.length < 4 then
    (st, false, "Password must be at least 4 characters")
  else
    let (auth1, success, message) := auth_add_user hashPassword st.auth username password role
    let st1 := { st with auth := auth1 }
    if success then
      let log1 := log_admin_action st1.log ts current_user "add_user" (some username)
      let log2 := log_command log1 ts current_user ("add_user " ++ username) true
      ({ st1 with log := log2 }, success, message)
    else (st1, success, message)

/-- AdminTools.remove_user: local validation, delegate, audit on success. -/
def admin_remove_user (ts : String) (st : SysState)
    (username current_user : String) : SysState × Bool × String :=
  if username = "" then (st, false, "Username is required")
  else if username = current_user then (st, false, "Cannot remove your own account")
  else
    let (auth1, success, message) := auth_remove_user st.auth username
    let st1 := { st with auth := auth1 }
    if success then
      let log1 := log_admin_action st1.log ts current_user "remove_user" (some username)
      let log2 := log_command log1 ts current_user ("remove_user " ++ username) true
      ({ st1 with log := log2 }, success, message)
    else (st1, success, message)

/-- AdminTools.view_logs: audit first, then read the log tail, so the
returned content already contains the fresh COMMAND entry. -/
def admin_view_logs (ts : String) (st : SysState) (lines : Option Int)
    (current_user : String) : SysState × String :=
  let log1 := log_command st.log ts current_user "view_logs" true
  ({ st with log := log1 }, view_logs { st.log with logFile := log1.logFile } lines)

/-- AdminTools.export_logs: delegate, audit on success (COMMAND then ADMIN). -/
def admin_export_logs (ts : String) (st : SysState) (current_user : String) :
    SysState × Bool × String :=
  let (log1, success, message) := export_to_csv st.log
  let st1 := { st with log := log1 }
  if success then
    let log2 := log_command st1.log ts current_user "export_logs" true
    let log3 := log_admin_action log2 ts current_user "export_logs" none
    ({ st1 with log := log3 }, success, message)
  else (st1, success, message)

/-- AdminTools.unlock_user: local validation, delegate, audit on success. -/
def admin_unlock_user (ts : String) (st : SysState)
    (username current_user : String) : SysState × Bool × String :=
  if username = "" then (st, false, "Username is required")
  else
    let (auth1, success, message) := auth_unlock_user st.auth username
    let st1 := { st with auth := auth1 }
    if success then
      let log1 := log_admin_action st1.log ts current_user "unlock_user" (some username)
      let log2 := log_command log1 ts current_user ("unlock_user " ++ username) true
      ({ st1 with log := log2 }, success, message)
    else (st1, success, message)

/-! ## command_dispatcher.py: CommandDispatcher
Interactive prompts consume lines from the stdin list; an exhausted list is
end of file. An uncaught Python exception is modelled as the error case of
Except, carrying the exception name. -/

/-- CommandDispatcher.parse_command. -/
def parse_command (command_input : String) : String × List String :=
  match (pyStripStr command_input).splitOn " " |>.filter (fun w => w ≠ "") with
  | [] => ("", [])
  | c :: rest => (pyLower c, rest)

/-- CommandDispatcher voice-alias normalization table. -/
def normalizeCommand (command : String) : String :=
  let c := pyStripStr (pyLower command)
  if c = "add user" then "add_user"
  else if c = "remove user" then "remove_user"
  else if c = "view logs" then "view_logs"
  else if c = "change password" then "change_password"
  else if c = "export logs" then "export_logs"
  else c

/-- CommandDispatcher help-menu text (role dependent). -/
def helpMenu (session : SessionState) : String :=
  let base := "\n=== Available Commands ===\n\n"
    ++ "General Commands:\n"
    ++ "  status          - Show current session information\n"
    ++ "  logout          - Log out of the system\n"
    ++ "  help            - Show this help menu\n"
    ++ "  change password - Change your password\n"
  let admin_part := if is_admin session then
      "\nAdmin Commands:\n"
      ++ "  add user <username> <password> [role]  - Add a new user\n"
      ++ "  remove user <username>                 - Remove a user\n"
      ++ "  view logs [lines]                      - View system logs\n"
      ++ "  export logs                           - Export logs to CSV\n"
    else ""
  let voice_base := "\nVoice Commands:\n"
    ++ "  Type \x27voice\x27 to enter voice command mode\n"
    ++ "  Available voice commands: status, logout, help, change password\n"
  let voice_admin := if is_admin session then
      "  Admin voice commands: add user, remove user, view logs, export logs\n"
    else ""
  base ++ admin_part ++ voice_base ++ voice_admin
    ++ "  Note: Voice recognition requires internet connection\n" ++ "\n"

/-- CommandDispatcher status handler. -/
def handleStatus (ts : String) (st : SysState) (username : String) :
    SysState × Bool × String :=
  match get_session_info st.session with
  | some info =>
    let status_msg := "Logged in as: " ++ username ++ "\n"
      ++ "Role: " ++ info.role ++ "\n"
      ++ "Session started: " ++ info.created_at
    ({ st with log := log_command st.log ts username "status" true }, true, status_msg)
  | none => (st, false, "Session information not available")

/-- CommandDispatcher logout handler. -/
def handleLogout (ts : String) (st : SysState) (username : String) :
    SysState × Bool × String :=
  let st1 := { st with log := log_command st.log ts username "logout" true }
  ({ st1 with session := end_session st1.session }, true, "Logged out successfully")

/-- Dispatcher prompt for old and new password (two getpass reads; end of
file on either read yields None). -/
def promptForPasswords (st : SysState) : SysState × Option (List String) :=
  match st.stdin with
  | old_password :: new_password :: rest =>
    ({ st with stdin := rest }, some [old_password, new_password])
  | [_] => ({ st with stdin := [] }, none)
  | [] => (st, none)

/-- CommandDispatcher change-password handler. -/
def handleChangePassword (hashPassword : String → String) (ts : String)
    (st : SysState) (username : String) (args : List String) :
    SysState × Bool × String :=
  let run := fun (st : SysState) (args : List String) =>
    let old_password := args.getD 0 ""
    let new_password := args.getD 1 ""
    if new_password.length < 4 then
      (st, false, "New password must be at least 4 characters")
    else
      let (auth1, success, message) :=
        auth_change_password hashPassword st.auth username old_password new_password
      ({ st with
          auth := auth1
          log := log_command st.log ts username "change_password" success },
        success, message)
  if args.length < 2 then
    if args.length = 0 then
      match promptForPasswords st with
      | (st1, none) => (st1, false, "Command cancelled")
      | (st1, some args1) => run st1 args1
    else (st, false, "Usage: change password <old_password> <new_password>")
  else run st args

/-- Dispatcher prompt for new-user details (username, password, role; an
invalid role input falls back to the user role; end of file yields None). -/
def promptForNewUser (st : SysState) : SysState × Option (List String) :=
  match st.stdin with
  | u :: p :: r :: rest =>
    let role_input := pyStripStr r
    let role := if role_input = "admin" ∨ role_input = "user" then role_input else "user"
    ({ st with stdin := rest }, some [pyStripStr u, p, role])
  | [_, _] => ({ st with stdin := [] }, none)
  | [_] => ({ st with stdin := [] }, none)
  | [] => (st, none)

/-- CommandDispatcher add-user handler. -/
def handleAddUser (hashPassword : String → String) (ts : String) (st : SysState)
    (username : String) (args : List String) : SysState × Bool × String :=
  let run := fun (st : SysState) (args : List String) =>
    let new_username := args.getD 0 ""
    let new_password := args.getD 1 ""
    let role := if args.length > 2 then args.getD 2 "" else "user"
    admin_add_user hashPassword ts st new_username new_password role username
  if args.length < 2 then
    if args.length = 0 then
      match promptForNewUser st with
      | (st1, none) => (st1, false, "Command cancelled")
      | (st1, some args1) => run st1 args1
    else (st, false, "Usage: add user <username> <password> [role]")
  else run st args

/-- CommandDispatcher remove-user handler; the confirmation uses a bare
input() call, so end of file raises EOFError out of the dispatcher. -/
def handleRemoveUser (ts : String) (st : SysState) (username : String)
    (args : List String) : Except String (SysState × Bool × String) :=
  if args.length < 1 then .ok (st, false, "Usage: remove user <username>")
  else
    let target_username := args.getD 0 ""
    match st.stdin with
    | [] => .error "EOFError"
    | confirm :: rest =>
      let st1 := { st with stdin := rest }
      if pyLower confirm ≠ "yes" then .ok (st1, false, "User removal cancelled")
      else .ok (admin_remove_user ts st1 target_username username)

/-- CommandDispatcher view-logs handler. -/
def handleViewLogs (ts : String) (st : SysState) (username : String)
    (args : List String) : SysState × Bool × String :=
  match args with
  | [] =>
    let (st1, logs) := admin_view_logs ts st none username
    (st1, true, logs)
  | a :: _ =>
    match pyParseInt a with
    | none => (st, false, "Invalid number of lines. Usage: view logs [lines]")
    | some n =>
      let (st1, logs) := admin_view_logs ts st (some n) username
      (st1, true, logs)

/-- CommandDispatcher export-logs handler as defined in the source (one
parameter); the routing table calls it with two, see routeCommand. -/
def handleExportLogs (ts : String) (st : SysState) (username : String) :
    SysState × Bool × String :=
  admin_export_logs ts st username

/-- CommandDispatcher routing: general commands, then the admin-gated table
{add_user, remove_user, view_logs, export_logs} behind the is_admin check,
then the unknown-command fallback. The export_logs table entry takes one
parameter but is invoked with two, so reaching it raises TypeError. -/
def routeCommand (hashPassword : String → String) (ts : String) (st : SysState)
    (command : String) (args : List String) (username : String) :
    Except String (SysState × Bool × String) :=
  if command = "exit voice mode" then
    .ok (st, false, "This command should be handled by the main loop")
  else if command = "help" then .ok (st, true, helpMenu st.session)
  else if command = "status" then .ok (handleStatus ts st username)
  else if command = "logout" then .ok (handleLogout ts st username)
  else if command = "change_password" then
    .ok (handleChangePassword hashPassword ts st username args)
  else if command = "add_user" ∨ command = "remove_user"
      ∨ command = "view_logs" ∨ command = "export_logs" then
    if ¬ is_admin st.session then
      .ok (st, false, "Permission denied: Admin access required.")
    else if command = "add_user" then .ok (handleAddUser hashPassword ts st username args)
    else if command = "remove_user" then handleRemoveUser ts st username args
    else if command = "view_logs" then .ok (handleViewLogs ts st username args)
    else .error "TypeError"
  else
    .ok ({ st with log := log_command st.log ts username command false },
      false, "Unknown command: " ++ command ++ ". Type \x27help\x27 for available commands.")

/-- CommandDispatcher.execute_command: authentication gate, activity touch,
normalization, routing. When the gate passes, the current session exists, so
the default of getD below is unreachable. -/
def execute_command (hashPassword : String → String) (ts : String) (st : SysState)
    (command : String) (args : List String) :
    Except String (SysState × Bool × String) :=
  if ¬ is_authenticated st.session then
    .ok (st, false, "You must be logged in to execute commands.")
  else
    let username := (get_current_user st.session).getD ""
    let st1 := { st with session := update_activity st.session ts }
    let command1 := normalizeCommand command
    routeCommand hashPassword ts st1 command1 args username

/-! ## Concrete fixtures
The seeded store mirrors the default users.json written by
AuthModule._ensure_users_file (admin / admin123, role admin, not locked);
since only digest equality matters, the identity function stands in for the
SHA256 digest in concrete instances. -/

/-- Stand-in digest for concrete instances (injective on the inputs used). -/
def hashId : String → String := fun s => s

/-- The default seeded user record of users.json (digest field under hashId). -/
def adminRec : UserRecord := ⟨"admin123", "admin", false⟩

/-- A store holding only the seeded admin user, counter map empty. -/
def storeAdmin : AuthState := ⟨[("admin", adminRec)], [], 0⟩

/-- An admin session fixture (token tokA, role admin). -/
def adminSession : SessionState :=
  ⟨[("tokA", ⟨"admin", "admin", "T0", "T0"⟩)], some "tokA"⟩

/-- A non-admin session fixture (token tokU, role user). -/
def userSession : SessionState :=
  ⟨[("tokU", ⟨"bob", "user", "T0", "T0"⟩)], some "tokU"⟩

/-- A locked user record fixture. -/
def lockedBobRec : UserRecord := ⟨"bobpw", "user", true⟩

/-- A store holding the seeded admin and a locked user bob. -/
def storeTwo : AuthState := ⟨[("admin", adminRec), ("bob", lockedBobRec)], [], 0⟩

/-- Full system fixture under the admin session. -/
def sysAdmin : SysState := ⟨adminSession, storeTwo, ⟨[], []⟩, []⟩

/-- Full system fixture under the non-admin session. -/
def sysUser : SysState := ⟨userSession, storeTwo, ⟨[], []⟩, []⟩

/-! ## Dictionary lemmas -/

theorem dictGet?_set_self {α : Type} (d : List (String × α)) (k : String) (v : α) :
    dictGet? (dictSet d k v) k = some v := by
  induction d with
  | nil => simp [dictSet, dictGet?]
  | cons p t ih =>
    obtain ⟨k1, v1⟩ := p
    by_cases h : k1 = k
    · simp [dictSet, dictGet?, h]
    · simp [dictSet, dictGet?, h, ih]

theorem dictGet?_set_ne {α : Type} (d : List (String × α)) (k k' : String) (v : α)
    (h : k' ≠ k) : dictGet? (dictSet d k v) k' = dictGet? d k' := by
  have h' : ¬ (k = k') := fun e => h e.symm
  induction d with
  | nil => simp [dictSet, dictGet?, h']
  | cons p t ih =>
    obtain ⟨k1, v1⟩ := p
    by_cases hk : k1 = k
    · subst hk
      simp [dictSet, dictGet?, h']
    · simp only [dictSet, if_neg hk]
      by_cases hk' : k1 = k'
      · simp [dictGet?, hk']
      · simp [dictGet?, hk', ih]

/-! ## Session stability lemmas -/

theorem getCurrentSession_update_activity (st : SessionState) (now : String) :
    getCurrentSession (update_activity st now) =
      (getCurrentSession st).map (fun d => { d with last_activity := now }) := by
  unfold update_activity getCurrentSession
  match h : st.current_token with
  | none => simp [h]
  | some t =>
    match hd : dictGet? st.sessions t with
    | none => simp [h, hd]
    | some d => simp [h, hd, dictGet?_set_self]

theorem is_authenticated_update_activity (st : SessionState) (now : String) :
    is_authenticated (update_activity st now) = is_authenticated st := by
  unfold update_activity is_authenticated
  match h : st.current_token with
  | none => simp [h]
  | some t =>
    match hd : dictGet? st.sessions t with
    | none => simp [h, hd]
    | some d => simp [h, hd, dictHas, dictGet?_set_self]

theorem get_current_user_update_activity (st : SessionState) (now : String) :
    get_current_user (update_activity st now) = get_current_user st := by
  unfold get_current_user
  rw [getCurrentSession_update_activity]
  cases getCurrentSession st <;> rfl

theorem is_admin_update_activity (st : SessionState) (now : String) :
    is_admin (update_activity st now) = is_admin st := by
  unfold is_admin get_current_role
  rw [getCurrentSession_update_activity]
  cases getCurrentSession st <;> rfl

/-! ## Case lemmas for AuthModule.authenticate -/

theorem authenticate_not_found (hp : String → String) (st : AuthState) (u p : String)
    (hu : dictGet? st.fileUsers u = none) :
    authenticate hp st u p = ⟨st, false, "Invalid username or password"⟩ := by
  simp only [authenticate, hu]

theorem authenticate_locked (hp : String → String) (st : AuthState) (u p : String)
    (r : UserRecord) (hu : dictGet? st.fileUsers u = some r) (hl : r.locked = true) :
    authenticate hp st u p =
      ⟨st, false, "Account is locked. Please contact an administrator."⟩ := by
  simp only [authenticate, hu, hl, if_true]

theorem authenticate_wrong_below (hp : String → String) (st : AuthState)
    (u p : String) (r : UserRecord) (n : Nat)
    (hu : dictGet? st.fileUsers u = some r) (hl : r.locked = false)
    (hfa : (dictGet? st.lockout_state u).getD 0 = n) (hn : n + 1 < 3)
    (hw : r.password_hash ≠ hp p) :
    authenticate hp st u p =
      ⟨{ st with lockout_state := dictSet st.lockout_state u (n + 1) }, false,
        "Invalid password. " ++ toString (3 - (n + 1)) ++ " attempt(s) remaining."⟩ := by
  have h1 : ¬ n ≥ 3 := by omega
  have h2 : 3 - (n + 1) > 0 := by omega
  simp only [authenticate, hu, hl, hfa, MAX_FAILED_ATTEMPTS]
  simp only [Bool.false_eq_true, if_false, if_neg h1, if_pos hw, if_pos h2]

theorem authenticate_wrong_lock (hp : String → String) (st : AuthState)
    (u p : String) (r : UserRecord)
    (hu : dictGet? st.fileUsers u = some r) (hl : r.locked = false)
    (hfa : (dictGet? st.lockout_state u).getD 0 = 2)
    (hw : r.password_hash ≠ hp p) :
    authenticate hp st u p =
      ⟨{ fileUsers := dictSet st.fileUsers u { r with locked := true },
         lockout_state := dictSet st.lockout_state u 3,
         writes := st.writes + 1 }, false,
        "Account locked due to too many failed login attempts."⟩ := by
  have h1 : ¬ (2 : Nat) ≥ 3 := by omega
  have h2 : ¬ (3 - (2 + 1) > 0) := by omega
  simp only [authenticate, hu, hl, hfa, MAX_FAILED_ATTEMPTS]
  simp only [Bool.false_eq_true, if_false, if_neg h1, if_pos hw, if_neg h2, saveUsers]

theorem authenticate_success (hp : String → String) (st : AuthState)
    (u p : String) (r : UserRecord) (n : Nat)
    (hu : dictGet? st.fileUsers u = some r) (hl : r.locked = false)
    (hfa : (dictGet? st.lockout_state u).getD 0 = n) (hn : n < 3)
    (hc : r.password_hash = hp p) :
    authenticate hp st u p =
      ⟨{ st with lockout_state := dictSet st.lockout_state u 0 }, true,
        "Login successful"⟩ := by
  have h1 : ¬ n ≥ 3 := by omega
  have h2 : ¬ r.password_hash ≠ hp p := by simp [hc]
  simp only [authenticate, hu, hl, hfa, MAX_FAILED_ATTEMPTS]
  simp only [Bool.false_eq_true, if_false, if_neg h1, if_neg h2]

theorem authenticate_over_threshold (hp : String → String) (st : AuthState)
    (u p : String) (r : UserRecord) (n : Nat)
    (hu : dictGet? st.fileUsers u = some r) (hl : r.locked = false)
    (hfa : (dictGet? st.lockout_state u).getD 0 = n) (hn : n ≥ 3) :
    authenticate hp st u p =
      ⟨{ fileUsers := dictSet st.fileUsers u { r with locked := true },
         lockout_state := st.lockout_state,
         writes := st.writes + 1 }, false,
        "Account locked due to too many failed login attempts."⟩ := by
  have h1 : n ≥ 3 := by omega
  simp only [authenticate, hu, hl, hfa, MAX_FAILED_ATTEMPTS]
  simp only [Bool.false_eq_true, if_false, if_pos h1, saveUsers]

/-! ## Claims about AuthModule -/

/-- Claim C3, counterexample: for a username absent from the store the source
returns before touching the lockout map, so the counter for that username
stays 0 and is not incremented to 1 as the claim asserts. -/
theorem C3_unknown_username_cex :
    (authenticate hashId storeAdmin "ghost" "pw").msg = "Invalid username or password"
    ∧ (dictGet? (authenticate hashId storeAdmin "ghost" "pw").state.lockout_state
        "ghost").getD 0 = 0
    ∧ ¬ ((dictGet? (authenticate hashId storeAdmin "ghost" "pw").state.lockout_state
        "ghost").getD 0 = 1) := by
  decide

/-- Claim C3 as amended: for every username absent from the credential store,
authenticate returns failure with the message "Invalid username or password"
and leaves the authenticator state, including the in-memory lockout map,
completely unchanged (the unknown-username path returns before the counter
update, unlike a wrong-password attempt on an existing user). -/
theorem C3_unknown_username_no_mutation (hp : String → String) (st : AuthState)
    (u p : String) (h : dictGet? st.fileUsers u = none) :
    authenticate hp st u p = ⟨st, false, "Invalid username or password"⟩ :=
  authenticate_not_found hp st u p h

/-- Witness for C3 at the seeded store and an absent username. -/
theorem C3_unknown_username_no_mutation_witness :
    dictGet? storeAdmin.fileUsers "ghost" = none
    ∧ authenticate hashId storeAdmin "ghost" "pw"
        = ⟨storeAdmin, false, "Invalid username or password"⟩ :=
  ⟨by decide, C3_unknown_username_no_mutation hashId storeAdmin "ghost" "pw" (by decide)⟩

/-- Claim C2: starting from a stored, unlocked user with counter 0, the first
wrong password yields the two-attempts-remaining failure, the second the
one-attempt failure, the third sets locked on the persisted record and
reports the lock, and from then on every authenticate call for that
username, with any password, fails with the locked-account message and
leaves the state unchanged, until an unlock. -/
theorem C2_lockout_state_machine (hp : String → String) (st : AuthState)
    (u pw : String) (r : UserRecord)
    (hu : dictGet? st.fileUsers u = some r) (hl : r.locked = false)
    (h0 : (dictGet? st.lockout_state u).getD 0 = 0)
    (hw : hp pw ≠ r.password_hash) :
    (authenticate hp st u pw).ok = false
    ∧ (authenticate hp st u pw).msg = "Invalid password. 2 attempt(s) remaining."
    ∧ (authenticate hp (authenticate hp st u pw).state u pw).msg
        = "Invalid password. 1 attempt(s) remaining."
    ∧ (authenticate hp (authenticate hp (authenticate hp st u pw).state u pw).state
        u pw).ok = false
    ∧ (authenticate hp (authenticate hp (authenticate hp st u pw).state u pw).state
        u pw).msg = "Account locked due to too many failed login attempts."
    ∧ dictGet? (authenticate hp (authenticate hp (authenticate hp st u pw).state
        u pw).state u pw).state.fileUsers u = some { r with locked := true }
    ∧ (∀ (st' : AuthState) (q : String) (r' : UserRecord),
        dictGet? st'.fileUsers u = some r' → r'.locked = true →
        authenticate hp st' u q
          = ⟨st', false, "Account is locked. Please contact an administrator."⟩) := by
  have hw' : r.password_hash ≠ hp pw := fun e => hw e.symm
  have hfa1 : (dictGet? (dictSet st.lockout_state u 1) u).getD 0 = 1 := by
    rw [dictGet?_set_self]; rfl
  have hfa2 : (dictGet? (dictSet (dictSet st.lockout_state u 1) u 2) u).getD 0 = 2 := by
    rw [dictGet?_set_self]; rfl
  have E1 : authenticate hp st u pw
      = ⟨{ st with lockout_state := dictSet st.lockout_state u 1 }, false,
          "Invalid password. 2 attempt(s) remaining."⟩ := by
    rw [authenticate_wrong_below hp st u pw r 0 hu hl h0 (by omega) hw']
    rfl
  have E2 : authenticate hp { st with lockout_state := dictSet st.lockout_state u 1 } u pw
      = ⟨{ st with lockout_state := dictSet (dictSet st.lockout_state u 1) u 2 }, false,
          "Invalid password. 1 attempt(s) remaining."⟩ := by
    rw [authenticate_wrong_below hp
      { st with lockout_state := dictSet st.lockout_state u 1 } u pw r 1 hu hl hfa1
      (by omega) hw']
    rfl
  have E3 : authenticate hp
        { st with lockout_state := dictSet (dictSet st.lockout_state u 1) u 2 } u pw
      = ⟨⟨dictSet st.fileUsers u { r with locked := true },
          dictSet (dictSet (dictSet st.lockout_state u 1) u 2) u 3, st.writes + 1⟩,
          false, "Account locked due to too many failed login attempts."⟩ := by
    rw [authenticate_wrong_lock hp
      { st with lockout_state := dictSet (dictSet st.lockout_state u 1) u 2 } u pw r
      hu hl hfa2 hw']
  have S1 : (authenticate hp st u pw).state
      = { st with lockout_state := dictSet st.lockout_state u 1 } := by rw [E1]
  have S2 : (authenticate hp (authenticate hp st u pw).state u pw).state
      = { st with lockout_state := dictSet (dictSet st.lockout_state u 1) u 2 } := by
    rw [S1, E2]
  refine ⟨?_, ?_, ?_, ?_, ?_, ?_,
    fun st' q r' hu' hl' => authenticate_locked hp st' u q r' hu' hl'⟩
  · rw [E1]
  · rw [E1]
  · rw [S1, E2]
  · rw [S2, E3]
  · rw [S2, E3]
  · rw [S2, E3]
    exact dictGet?_set_self st.fileUsers u { r with locked := true }

/-- Witness for C2: the concrete spec scenario on the seeded store, with the
final conjunct applied to the locked store that the third failure produces. -/
theorem C2_lockout_state_machine_witness :
    (dictGet? storeAdmin.fileUsers "admin" = some adminRec
      ∧ adminRec.locked = false
      ∧ (dictGet? storeAdmin.lockout_state "admin").getD 0 = 0
      ∧ hashId "wrong" ≠ adminRec.password_hash)
    ∧ (authenticate hashId storeAdmin "admin" "wrong").ok = false
    ∧ (authenticate hashId storeAdmin "admin" "wrong").msg
        = "Invalid password. 2 attempt(s) remaining."
    ∧ (authenticate hashId (authenticate hashId storeAdmin "admin" "wrong").state
        "admin" "wrong").msg = "Invalid password. 1 attempt(s) remaining."
    ∧ (authenticate hashId (authenticate hashId (authenticate hashId storeAdmin
        "admin" "wrong").state "admin" "wrong").state "admin" "wrong").ok = false
    ∧ (authenticate hashId (authenticate hashId (authenticate hashId storeAdmin
        "admin" "wrong").state "admin" "wrong").state "admin" "wrong").msg
        = "Account locked due to too many failed login attempts."
    ∧ dictGet? (authenticate hashId (authenticate hashId (authenticate hashId
        storeAdmin "admin" "wrong").state "admin" "wrong").state
        "admin" "wrong").state.fileUsers "admin"
        = some { adminRec with locked := true }
    ∧ authenticate hashId ⟨[("admin", ⟨"admin123", "admin", true⟩)], [("admin", 3)], 1⟩
        "admin" "admin123"
        = ⟨⟨[("admin", ⟨"admin123", "admin", true⟩)], [("admin", 3)], 1⟩, false,
            "Account is locked. Please contact an administrator."⟩ := by
  have h := C2_lockout_state_machine hashId storeAdmin "admin" "wrong" adminRec
    (by decide) (by decide) (by decide) (by decide)
  exact ⟨⟨by decide, by decide, by decide, by decide⟩, h.1, h.2.1, h.2.2.1,
    h.2.2.2.1, h.2.2.2.2.1, h.2.2.2.2.2.1,
    h.2.2.2.2.2.2 ⟨[("admin", ⟨"admin123", "admin", true⟩)], [("admin", 3)], 1⟩
      "admin123" ⟨"admin123", "admin", true⟩ (by decide) (by decide)⟩

/-- Claim C5: the persisted user table is written back only on a lock
transition. A mismatch below the threshold and a successful login leave the
write counter and the persisted table untouched and mutate only the
in-memory counter; and whenever a call does write, it performs exactly one
write, fails, and the persisted record of the user flips from unlocked to
locked. -/
theorem C5_save_only_on_lock (hp : String → String) (st : AuthState)
    (u p : String) (r : UserRecord)
    (hu : dictGet? st.fileUsers u = some r) (hl : r.locked = false) :
    ((dictGet? st.lockout_state u).getD 0 + 1 < 3 → r.password_hash ≠ hp p →
      (authenticate hp st u p).state.writes = st.writes
      ∧ (authenticate hp st u p).state.fileUsers = st.fileUsers
      ∧ (authenticate hp st u p).state.lockout_state
          = dictSet st.lockout_state u ((dictGet? st.lockout_state u).getD 0 + 1))
    ∧ ((dictGet? st.lockout_state u).getD 0 < 3 → r.password_hash = hp p →
      (authenticate hp st u p).state.writes = st.writes
      ∧ (authenticate hp st u p).state.fileUsers = st.fileUsers
      ∧ (authenticate hp st u p).state.lockout_state = dictSet st.lockout_state u 0)
    ∧ (∀ st' : AuthState, (authenticate hp st' u p).state.writes ≠ st'.writes →
      (authenticate hp st' u p).state.writes = st'.writes + 1
      ∧ (authenticate hp st' u p).ok = false
      ∧ ∃ r' : UserRecord, dictGet? st'.fileUsers u = some r'
          ∧ r'.locked = false
          ∧ dictGet? (authenticate hp st' u p).state.fileUsers u
              = some { r' with locked := true }) := by
  refine ⟨?_, ?_, ?_⟩
  · intro hn hw
    rw [authenticate_wrong_below hp st u p r ((dictGet? st.lockout_state u).getD 0)
      hu hl rfl hn hw]
    exact ⟨rfl, rfl, rfl⟩
  · intro hn hc
    rw [authenticate_success hp st u p r ((dictGet? st.lockout_state u).getD 0)
      hu hl rfl hn hc]
    exact ⟨rfl, rfl, rfl⟩
  · intro st' hwr
    match hu' : dictGet? st'.fileUsers u with
    | none =>
      rw [authenticate_not_found hp st' u p hu'] at hwr
      exact absurd rfl hwr
    | some r' =>
      match hl' : r'.locked with
      | true =>
        rw [authenticate_locked hp st' u p r' hu' hl'] at hwr
        exact absurd rfl hwr
      | false =>
        by_cases hge : (dictGet? st'.lockout_state u).getD 0 ≥ 3
        · rw [authenticate_over_threshold hp st' u p r'
            ((dictGet? st'.lockout_state u).getD 0) hu' hl' rfl hge]
          exact ⟨rfl, rfl, r', rfl, hl', dictGet?_set_self _ _ _⟩
        · by_cases hmatch : r'.password_hash = hp p
          · rw [authenticate_success hp st' u p r'
              ((dictGet? st'.lockout_state u).getD 0) hu' hl' rfl (by omega) hmatch]
              at hwr
            exact absurd rfl hwr
          · by_cases hbelow : (dictGet? st'.lockout_state u).getD 0 + 1 < 3
            · rw [authenticate_wrong_below hp st' u p r'
                ((dictGet? st'.lockout_state u).getD 0) hu' hl' rfl hbelow hmatch]
                at hwr
              exact absurd rfl hwr
            · have h2 : (dictGet? st'.lockout_state u).getD 0 = 2 := by omega
              rw [authenticate_wrong_lock hp st' u p r' hu' hl' h2 hmatch]
              exact ⟨rfl, rfl, r', rfl, hl', dictGet?_set_self _ _ _⟩

/-- Witness for C5 on the seeded store: a wrong password below threshold and
a successful login write nothing; the third conjunct applied to a store at
the threshold shows the single lock-transition write. -/
theorem C5_save_only_on_lock_witness :
    (dictGet? storeAdmin.fileUsers "admin" = some adminRec
      ∧ adminRec.locked = false
      ∧ (dictGet? storeAdmin.lockout_state "admin").getD 0 + 1 < 3
      ∧ adminRec.password_hash ≠ hashId "wrong"
      ∧ adminRec.password_hash = hashId "admin123")
    ∧ ((authenticate hashId storeAdmin "admin" "wrong").state.writes
        = storeAdmin.writes
      ∧ (authenticate hashId storeAdmin "admin" "wrong").state.fileUsers
        = storeAdmin.fileUsers)
    ∧ ((authenticate hashId storeAdmin "admin" "admin123").state.writes
        = storeAdmin.writes
      ∧ (authenticate hashId storeAdmin "admin" "admin123").state.fileUsers
        = storeAdmin.fileUsers)
    ∧ ((authenticate hashId ⟨[("admin", adminRec)], [("admin", 2)], 5⟩
          "admin" "wrong").state.writes ≠ 5 →
        (authenticate hashId ⟨[("admin", adminRec)], [("admin", 2)], 5⟩
          "admin" "wrong").state.writes = 5 + 1
        ∧ (authenticate hashId ⟨[("admin", adminRec)], [("admin", 2)], 5⟩
            "admin" "wrong").ok = false
        ∧ ∃ r' : UserRecord,
            dictGet? (⟨[("admin", adminRec)], [("admin", 2)], 5⟩ : AuthState).fileUsers
              "admin" = some r'
            ∧ r'.locked = false
            ∧ dictGet? (authenticate hashId ⟨[("admin", adminRec)], [("admin", 2)], 5⟩
                "admin" "wrong").state.fileUsers "admin"
                = some { r' with locked := true }) := by
  have h1 := C5_save_only_on_lock hashId storeAdmin "admin" "wrong" adminRec
    (by decide) (by decide)
  have h2 := C5_save_only_on_lock hashId storeAdmin "admin" "admin123" adminRec
    (by decide) (by decide)
  refine ⟨⟨by decide, by decide, by decide, by decide, by decide⟩, ?_, ?_, ?_⟩
  · have := h1.1 (by decide) (by decide)
    exact ⟨this.1, this.2.1⟩
  · have := h2.2.1 (by decide) (by decide)
    exact ⟨this.1, this.2.1⟩
  · exact h1.2.2 ⟨[("admin", adminRec)], [("admin", 2)], 5⟩

/-- Claim C7: unlocking a stored user and then authenticating with the
correct password succeeds and leaves the in-memory counter at 0, whatever
the prior lock flag and counter value. -/
theorem C7_unlock_then_login (hp : String → String) (st : AuthState)
    (u p : String) (r : UserRecord)
    (hu : dictGet? st.fileUsers u = some r) (hc : r.password_hash = hp p) :
    (auth_unlock_user st u).2.1 = true
    ∧ (authenticate hp (auth_unlock_user st u).1 u p).ok = true
    ∧ (authenticate hp (auth_unlock_user st u).1 u p).msg = "Login successful"
    ∧ (dictGet? (authenticate hp (auth_unlock_user st u).1 u p).state.lockout_state
        u).getD 0 = 0 := by
  have hok : (auth_unlock_user st u).2.1 = true := by
    simp only [auth_unlock_user, hu]
  have hfu : (auth_unlock_user st u).1.fileUsers
      = dictSet st.fileUsers u { r with locked := false } := by
    simp only [auth_unlock_user, hu, saveUsers]
    by_cases h : dictHas (st.lockout_state) u = true
    · simp [h]
    · simp [h]
  have hu1 : dictGet? (auth_unlock_user st u).1.fileUsers u
      = some { r with locked := false } := by
    rw [hfu]; exact dictGet?_set_self _ _ _
  have hfa1 : (dictGet? (auth_unlock_user st u).1.lockout_state u).getD 0 = 0 := by
    simp only [auth_unlock_user, hu, saveUsers]
    by_cases h : dictHas (st.lockout_state) u = true
    · simp only [h, if_true]
      rw [dictGet?_set_self]
      rfl
    · simp only [h, if_false]
      simp only [dictHas, Option.isSome] at h
      match hd : dictGet? st.lockout_state u with
      | none => rfl
      | some v => rw [hd] at h; simp at h
  have E := authenticate_success hp (auth_unlock_user st u).1 u p
    { r with locked := false } 0 hu1 rfl hfa1 (by omega) hc
  refine ⟨hok, ?_, ?_, ?_⟩
  · rw [E]
  · rw [E]
  · rw [E]
    simp only
    rw [dictGet?_set_self]
    rfl

/-- Witness for C7: a locked admin record with a saturated counter is
unlocked and logs in. -/
theorem C7_unlock_then_login_witness :
    (dictGet? (⟨[("admin", ⟨"admin123", "admin", true⟩)], [("admin", 3)], 1⟩
        : AuthState).fileUsers "admin" = some ⟨"admin123", "admin", true⟩
      ∧ (⟨"admin123", "admin", true⟩ : UserRecord).password_hash = hashId "admin123")
    ∧ (auth_unlock_user ⟨[("admin", ⟨"admin123", "admin", true⟩)], [("admin", 3)], 1⟩
        "admin").2.1 = true
    ∧ (authenticate hashId (auth_unlock_user
        ⟨[("admin", ⟨"admin123", "admin", true⟩)], [("admin", 3)], 1⟩ "admin").1
        "admin" "admin123").ok = true
    ∧ (authenticate hashId (auth_unlock_user
        ⟨[("admin", ⟨"admin123", "admin", true⟩)], [("admin", 3)], 1⟩ "admin").1
        "admin" "admin123").msg = "Login successful"
    ∧ (dictGet? (authenticate hashId (auth_unlock_user
        ⟨[("admin", ⟨"admin123", "admin", true⟩)], [("admin", 3)], 1⟩ "admin").1
        "admin" "admin123").state.lockout_state "admin").getD 0 = 0 := by
  have h := C7_unlock_then_login hashId
    ⟨[("admin", ⟨"admin123", "admin", true⟩)], [("admin", 3)], 1⟩
    "admin" "admin123" ⟨"admin123", "admin", true⟩ (by decide) (by decide)
  exact ⟨⟨by decide, by decide⟩, h.1, h.2.1, h.2.2.1, h.2.2.2⟩

/-! ## Claims about SessionManager -/

/-- Claim C6: create followed by end leaves no authenticated session; ending
an already-ended session changes nothing; and a second create before end
replaces the current token, so the prior token is no longer the current
session. -/
theorem C6_session_lifecycle (st : SessionState)
    (tok tok2 now now2 u role u2 role2 : String) (h : tok2 ≠ tok) :
    is_authenticated (end_session (create_session st tok now u role)) = false
    ∧ end_session (end_session (create_session st tok now u role))
        = end_session (create_session st tok now u role)
    ∧ (create_session (create_session st tok now u role) tok2 now2 u2 role2).current_token
        = some tok2
    ∧ (create_session (create_session st tok now u role) tok2 now2 u2 role2).current_token
        ≠ some tok := by
  refine ⟨rfl, rfl, rfl, ?_⟩
  intro e
  exact h (Option.some.inj e)

/-- Witness for C6 with two distinct concrete tokens. -/
theorem C6_session_lifecycle_witness :
    ("tok2" : String) ≠ "tok1"
    ∧ (is_authenticated (end_session (create_session ⟨[], none⟩ "tok1" "T0" "admin" "admin")) = false
      ∧ end_session (end_session (create_session ⟨[], none⟩ "tok1" "T0" "admin" "admin"))
          = end_session (create_session ⟨[], none⟩ "tok1" "T0" "admin" "admin")
      ∧ (create_session (create_session ⟨[], none⟩ "tok1" "T0" "admin" "admin")
          "tok2" "T1" "bob" "user").current_token = some "tok2"
      ∧ (create_session (create_session ⟨[], none⟩ "tok1" "T0" "admin" "admin")
          "tok2" "T1" "bob" "user").current_token ≠ some "tok1") :=
  ⟨by decide,
   C6_session_lifecycle ⟨[], none⟩ "tok1" "tok2" "T0" "T1" "admin" "admin" "bob" "user"
     (by decide)⟩

/-! ## Routing lemmas for the dispatcher -/

theorem execute_command_routes (hp : String → String) (ts : String) (st : SysState)
    (cmd : String) (args : List String)
    (hauth : is_authenticated st.session = true) :
    execute_command hp ts st cmd args
      = routeCommand hp ts { st with session := update_activity st.session ts }
          (normalizeCommand cmd) args ((get_current_user st.session).getD "") := by
  unfold execute_command
  rw [if_neg (fun hn => hn hauth)]

theorem routeCommand_change_password_eq (hp : String → String) (ts : String)
    (st : SysState) (args : List String) (un : String) :
    routeCommand hp ts st "change_password" args un
      = .ok (handleChangePassword hp ts st un args) := by
  unfold routeCommand
  rw [if_neg (by decide), if_neg (by decide), if_neg (by decide), if_neg (by decide),
    if_pos rfl]

theorem routeCommand_admin_denied (hp : String → String) (ts : String)
    (st : SysState) (cmd : String) (args : List String) (un : String)
    (hcmd : cmd = "add_user" ∨ cmd = "remove_user" ∨ cmd = "view_logs"
      ∨ cmd = "export_logs")
    (hadm : is_admin st.session = false) :
    routeCommand hp ts st cmd args un
      = .ok (st, false, "Permission denied: Admin access required.") := by
  have hnadm : ¬ (is_admin st.session = true) := by rw [hadm]; simp
  rcases hcmd with h | h | h | h <;> subst h <;>
    (unfold routeCommand
     rw [if_neg (by decide), if_neg (by decide), if_neg (by decide),
       if_neg (by decide), if_neg (by decide), if_pos (by decide), if_pos hnadm])

theorem routeCommand_view_logs_admin (hp : String → String) (ts : String)
    (st : SysState) (args : List String) (un : String)
    (hadm : is_admin st.session = true) :
    routeCommand hp ts st "view_logs" args un = .ok (handleViewLogs ts st un args) := by
  have hnadm : ¬ ¬ (is_admin st.session = true) := fun hn => hn hadm
  unfold routeCommand
  rw [if_neg (by decide), if_neg (by decide), if_neg (by decide), if_neg (by decide),
    if_neg (by decide), if_pos (by decide), if_neg hnadm, if_neg (by decide),
    if_neg (by decide), if_pos rfl]

/-! ## Claims about the dispatcher -/

/-- Claim C1: the routing table of the dispatcher does not contain
unlock_user, so under an admin session the canonical token unlock_user with
one argument falls through to the unknown-command branch: it is logged as a
FAILED command and the authenticator state is untouched (the target user
stays locked), instead of passing the admin gate and delegating to the
unlock routine of the Authenticator. -/
theorem C1_unlock_user_not_routed :
    is_admin sysAdmin.session = true
    ∧ execute_command hashId "T1" sysAdmin "unlock_user" ["bob"]
      = .ok (⟨⟨[("tokA", ⟨"admin", "admin", "T0", "T1"⟩)], some "tokA"⟩, storeTwo,
          ⟨["[T1] [COMMAND] [admin] Command \x27unlock_user\x27 executed - FAILED\n"], []⟩,
          []⟩,
        false, "Unknown command: unlock_user. Type \x27help\x27 for available commands.")
    ∧ (dictGet? storeTwo.fileUsers "bob").map (fun r => r.locked) = some true :=
  ⟨rfl, rfl, rfl⟩

/-- Claim C4, counterexample: under a non-admin session the command
unlock_user, which the claim places in the admin-gated set, is answered with
the unknown-command message rather than the permission failure, and a FAILED
command entry is written to the log. -/
theorem C4_unlock_user_cex :
    is_authenticated sysUser.session = true
    ∧ is_admin sysUser.session = false
    ∧ execute_command hashId "T1" sysUser "unlock_user" []
      = .ok (⟨⟨[("tokU", ⟨"bob", "user", "T0", "T1"⟩)], some "tokU"⟩, storeTwo,
          ⟨["[T1] [COMMAND] [bob] Command \x27unlock_user\x27 executed - FAILED\n"], []⟩,
          []⟩,
        false, "Unknown command: unlock_user. Type \x27help\x27 for available commands.")
    ∧ ("Unknown command: unlock_user. Type \x27help\x27 for available commands."
        ≠ "Permission denied: Admin access required.") :=
  ⟨rfl, rfl, rfl, by decide⟩

/-- Claim C4 as amended: for every authenticated non-admin session and every
command in the set {add_user, remove_user, view_logs, export_logs} that the
routing table actually gates, execute_command returns the permission-denied
failure and leaves the credential store, the lockout map and the log
unchanged; only the activity timestamp of the session is touched
(unlock_user is not routed and instead hits the unknown-command branch,
which does log a failed command). -/
theorem C4_nonadmin_denied (hp : String → String) (ts : String) (st : SysState)
    (cmd : String) (args : List String)
    (hauth : is_authenticated st.session = true)
    (hadm : is_admin st.session = false)
    (hcmd : cmd = "add_user" ∨ cmd = "remove_user" ∨ cmd = "view_logs"
      ∨ cmd = "export_logs") :
    execute_command hp ts st cmd args
      = .ok ({ st with session := update_activity st.session ts }, false,
          "Permission denied: Admin access required.") := by
  have hadm1 : is_admin ({ st with session := update_activity st.session ts}
      : SysState).session = false := by
    show is_admin (update_activity st.session ts) = false
    rw [is_admin_update_activity]; exact hadm
  rw [execute_command_routes hp ts st cmd args hauth]
  rcases hcmd with h | h | h | h <;> subst h
  · rw [show normalizeCommand "add_user" = "add_user" from by decide,
      routeCommand_admin_denied _ _ _ _ _ _ (by simp) hadm1]
  · rw [show normalizeCommand "remove_user" = "remove_user" from by decide,
      routeCommand_admin_denied _ _ _ _ _ _ (by simp) hadm1]
  · rw [show normalizeCommand "view_logs" = "view_logs" from by decide,
      routeCommand_admin_denied _ _ _ _ _ _ (by simp) hadm1]
  · rw [show normalizeCommand "export_logs" = "export_logs" from by decide,
      routeCommand_admin_denied _ _ _ _ _ _ (by simp) hadm1]

/-- Witness for C4 under the concrete non-admin session and view_logs. -/
theorem C4_nonadmin_denied_witness :
    (is_authenticated sysUser.session = true
      ∧ is_admin sysUser.session = false)
    ∧ execute_command hashId "T1" sysUser "view_logs" []
      = .ok ({ sysUser with session := update_activity sysUser.session "T1" }, false,
          "Permission denied: Admin access required.") :=
  ⟨⟨rfl, rfl⟩,
   C4_nonadmin_denied hashId "T1" sysUser "view_logs" [] rfl rfl (by simp)⟩

/-- Claim C8: for an authenticated session, change_password with exactly two
arguments whose new password is shorter than 4 characters fails locally,
before the Authenticator is consulted: the credential store, the lockout map
and the log come back untouched inside the unchanged remainder of the state,
only the activity timestamp having been refreshed. -/
theorem C8_short_new_password (hp : String → String) (ts : String) (st : SysState)
    (old_password new_password : String)
    (hauth : is_authenticated st.session = true)
    (hlen : new_password.length < 4) :
    execute_command hp ts st "change_password" [old_password, new_password]
      = .ok ({ st with session := update_activity st.session ts }, false,
          "New password must be at least 4 characters") := by
  rw [execute_command_routes hp ts st _ _ hauth,
    show normalizeCommand "change_password" = "change_password" from by decide,
    routeCommand_change_password_eq]
  show Except.ok (if new_password.length < 4
      then (({ st with session := update_activity st.session ts } : SysState), false,
        "New password must be at least 4 characters")
      else _) = _
  rw [if_pos hlen]

/-- Witness for C8 on the concrete non-admin session with a 2-character new
password. -/
theorem C8_short_new_password_witness :
    (is_authenticated sysUser.session = true ∧ ("ab" : String).length < 4)
    ∧ execute_command hashId "T1" sysUser "change_password" ["old", "ab"]
      = .ok ({ sysUser with session := update_activity sysUser.session "T1" }, false,
          "New password must be at least 4 characters") :=
  ⟨⟨rfl, by decide⟩,
   C8_short_new_password hashId "T1" sysUser "old" "ab" rfl (by decide)⟩

/-! ## Helper lemmas for view_logs with a zero tail argument -/

theorem pyIdx_neg_zero (n : Nat) : pyIdx n (-(0 : Int)) = 0 := by
  simp [pyIdx]

theorem view_logs_zero (lg : LoggerState) :
    view_logs lg (some 0) = String.join lg.logFile := by
  show String.join (pySliceFrom lg.logFile (-(0 : Int))) = String.join lg.logFile
  unfold pySliceFrom
  rw [pyIdx_neg_zero, List.drop_zero]

theorem handleViewLogs_zero (ts : String) (st : SysState) (un : String) :
    handleViewLogs ts st un ["0"]
      = ({ st with log := log_command st.log ts un "view_logs" true }, true,
          String.join (log_command st.log ts un "view_logs" true).logFile) := by
  simp only [handleViewLogs, show pyParseInt "0" = some 0 from by decide,
    admin_view_logs, view_logs_zero]

/-- Claim C10: under an admin session, view_logs with the numeric argument 0
returns the whole log content, not an empty tail: the Python slice with -0
selects the entire line list, so the reply is the join of every line of the
log file, which by then also holds the fresh COMMAND entry (one line longer
than before the call). -/
theorem C10_view_logs_zero_returns_all (hp : String → String) (ts : String)
    (st : SysState)
    (hauth : is_authenticated st.session = true)
    (hadm : is_admin st.session = true) :
    execute_command hp ts st "view_logs" ["0"]
      = .ok ({ st with
            session := update_activity st.session ts
            log := log_command st.log ts ((get_current_user st.session).getD "")
              "view_logs" true },
          true,
          String.join (log_command st.log ts ((get_current_user st.session).getD "")
            "view_logs" true).logFile)
    ∧ (log_command st.log ts ((get_current_user st.session).getD "")
        "view_logs" true).logFile.length = st.log.logFile.length + 1 := by
  have hadm1 : is_admin ({ st with session := update_activity st.session ts }
      : SysState).session = true := by
    show is_admin (update_activity st.session ts) = true
    rw [is_admin_update_activity]; exact hadm
  refine ⟨?_, ?_⟩
  · rw [execute_command_routes hp ts st _ _ hauth,
      show normalizeCommand "view_logs" = "view_logs" from by decide,
      routeCommand_view_logs_admin _ _ _ _ _ hadm1,
      handleViewLogs_zero]
  · simp [log_command, writeLog]

/-- Witness for C10 on the concrete admin session. -/
theorem C10_view_logs_zero_returns_all_witness :
    (is_authenticated sysAdmin.session = true ∧ is_admin sysAdmin.session = true)
    ∧ execute_command hashId "T1" sysAdmin "view_logs" ["0"]
      = .ok ({ sysAdmin with
            session := update_activity sysAdmin.session "T1"
            log := log_command sysAdmin.log "T1"
              ((get_current_user sysAdmin.session).getD "") "view_logs" true },
          true,
          String.join (log_command sysAdmin.log "T1"
            ((get_current_user sysAdmin.session).getD "") "view_logs" true).logFile)
    ∧ (log_command sysAdmin.log "T1" ((get_current_user sysAdmin.session).getD "")
        "view_logs" true).logFile.length = sysAdmin.log.logFile.length + 1 :=
  ⟨⟨rfl, rfl⟩,
   (C10_view_logs_zero_returns_all hashId "T1" sysAdmin rfl rfl).1,
   (C10_view_logs_zero_returns_all hashId "T1" sysAdmin rfl rfl).2⟩

/-! ## String machinery lemmas for the log export -/

theorem dropWhile_idem (p : Char → Bool) (l : List Char) :
    (l.dropWhile p).dropWhile p = l.dropWhile p := by
  induction l with
  | nil => rfl
  | cons a t ih =>
    by_cases h : p a = true
    · simp [List.dropWhile_cons, h, ih]
    · simp [List.dropWhile_cons, h]

theorem rstripChars_cons (a : Char) (t : List Char) (h : isPyWS a = false) :
    rstripChars (a :: t) = a :: rstripChars t := by
  unfold rstripChars
  rw [List.reverse_cons, List.dropWhile_append]
  split
  case isTrue h' =>
    simp only [List.isEmpty_iff] at h'
    rw [h', List.dropWhile_cons, h]
    simp
  case isFalse h' =>
    rw [List.reverse_append]
    simp

theorem rstripChars_append (l1 l2 : List Char) (h : rstripChars l2 ≠ []) :
    rstripChars (l1 ++ l2) = l1 ++ rstripChars l2 := by
  have h2 : ¬ (l2.reverse.dropWhile isPyWS).isEmpty = true := by
    intro hc
    simp only [List.isEmpty_iff] at hc
    exact h (by unfold rstripChars; rw [hc]; rfl)
  unfold rstripChars
  rw [List.reverse_append, List.dropWhile_append, if_neg h2, List.reverse_append,
    List.reverse_reverse]

theorem pyStrip_cons_ws (a : Char) (t : List Char) (h : isPyWS a = true) :
    pyStrip (a :: t) = pyStrip t := by
  unfold pyStrip
  rw [List.dropWhile_cons, if_pos h]

theorem pyStrip_cons (a : Char) (t : List Char) (h : isPyWS a = false) :
    pyStrip (a :: t) = a :: rstripChars t := by
  unfold pyStrip
  rw [List.dropWhile_cons, if_neg (by simp [h]), rstripChars_cons a t h]

theorem rstripChars_idem (l : List Char) :
    rstripChars (rstripChars l) = rstripChars l := by
  unfold rstripChars
  rw [List.reverse_reverse, dropWhile_idem]

theorem rstripChars_eq_nil_iff (l : List Char) :
    rstripChars l = [] ↔ ∀ x ∈ l, isPyWS x = true := by
  unfold rstripChars
  rw [List.reverse_eq_nil_iff, List.dropWhile_eq_nil_iff]
  constructor
  · intro h x hx
    exact h x (List.mem_reverse.mpr hx)
  · intro h x hx
    exact h x (List.mem_reverse.mp hx)

theorem pyStrip_rstripChars (l : List Char) :
    pyStrip (rstripChars l) = pyStrip l := by
  induction l with
  | nil => rfl
  | cons a t ih =>
    by_cases h : isPyWS a = true
    · by_cases h2 : rstripChars t = []
      · have hall : ∀ x ∈ t, isPyWS x = true := (rstripChars_eq_nil_iff t).mp h2
        have h3 : rstripChars (a :: t) = [] := by
          rw [rstripChars_eq_nil_iff]
          intro x hx
          rcases List.mem_cons.mp hx with hx | hx
          · rw [hx]; exact h
          · exact hall x hx
        rw [h3, pyStrip_cons_ws a t h]
        have h4 : pyStrip t = [] := by
          unfold pyStrip
          rw [List.dropWhile_eq_nil_iff.mpr hall]
          rfl
        rw [h4]
        rfl
      · have h5 : rstripChars (a :: t) = a :: rstripChars t := by
          have := rstripChars_append [a] t h2
          simpa using this
        rw [h5, pyStrip_cons_ws a _ h, ih, pyStrip_cons_ws a t h]
    · have h' : isPyWS a = false := by
        cases hb : isPyWS a
        · rfl
        · exact absurd hb h
      rw [rstripChars_cons a t h', pyStrip_cons a _ h', pyStrip_cons a t h',
        rstripChars_idem]


theorem pyFindAux_append (c : Char) (mid l2 : List Char) (i : Nat) (h : c ∉ mid) :
    pyFindAux c (mid ++ c :: l2) i = ((i + mid.length : Nat) : Int) := by
  induction mid generalizing i with
  | nil => simp [pyFindAux]
  | cons a t ih =>
    have ha : ¬ (a = c) := fun e => h (e ▸ List.mem_cons_self a t)
    have ht : c ∉ t := fun e => h (List.mem_cons_of_mem a e)
    rw [List.cons_append, pyFindAux, if_neg ha, ih (i + 1) ht]
    simp only [List.length_cons]
    congr 1
    omega

theorem pyFindChar_natCast (s : List Char) (c : Char) (k : Nat) :
    pyFindChar s c (k : Int)
      = pyFindAux c (s.drop (min k s.length)) (min k s.length) := by
  unfold pyFindChar
  rw [if_neg (by omega), Int.toNat_natCast]

theorem pyFindChar_exact (s : List Char) (c : Char) (a : Int)
    (pre mid l2 : List Char)
    (hs : s = pre ++ (mid ++ c :: l2)) (ha : a = (pre.length : Int))
    (hc : c ∉ mid) :
    pyFindChar s c a = ((pre.length + mid.length : Nat) : Int) := by
  subst hs; subst ha
  have h2 : pre.length ≤ (pre ++ (mid ++ c :: l2)).length := by
    rw [List.length_append]; omega
  rw [pyFindChar_natCast, min_eq_left h2, List.drop_left]
  exact pyFindAux_append c mid l2 pre.length hc

theorem pySlice_exact (s : List Char) (a b : Int) (pre mid post : List Char)
    (hs : s = pre ++ (mid ++ post)) (ha : a = (pre.length : Int))
    (hb : b = ((pre.length + mid.length : Nat) : Int)) :
    pySlice s a b = mid := by
  subst hs; subst ha; subst hb
  unfold pySlice pyIdx
  have h0 : ¬ (((pre.length + mid.length : Nat) : Int) < 0) := by omega
  have h1 : ¬ ((pre.length : Int) < 0) := by omega
  rw [if_neg h0, if_neg h1, Int.toNat_natCast, Int.toNat_natCast]
  have hlen : (pre ++ (mid ++ post)).length
      = pre.length + mid.length + post.length := by
    simp [List.length_append]
    omega
  have h2 : pre.length + mid.length ≤ (pre ++ (mid ++ post)).length := by omega
  have h3 : pre.length ≤ (pre ++ (mid ++ post)).length := by omega
  rw [min_eq_left h2, min_eq_left h3, ← List.append_assoc,
    List.take_left' (by rw [List.length_append]), List.drop_left]

theorem pySliceFrom_exact (s : List Char) (a : Int) (pre tail : List Char)
    (hs : s = pre ++ tail) (ha : a = (pre.length : Int)) :
    pySliceFrom s a = tail := by
  subst hs; subst ha
  unfold pySliceFrom pyIdx
  have h1 : ¬ ((pre.length : Int) < 0) := by omega
  rw [if_neg h1, Int.toNat_natCast]
  have h3 : pre.length ≤ (pre ++ tail).length := by
    rw [List.length_append]; omega
  rw [min_eq_left h3, List.drop_left]


theorem parseLogLineChars_entry (ts lv us msg : List Char)
    (hts : ']' ∉ ts) (hlv : ']' ∉ lv) (hus : ']' ∉ us) :
    parseLogLineChars
        ('[' :: (ts ++ (']' :: ' ' :: '[' ::
          (lv ++ (']' :: ' ' :: '[' :: (us ++ (']' :: ' ' :: msg)))))))
      = some [ts, lv, us, pyStrip msg] := by
  set RM := rstripChars (' ' :: msg) with hRM
  set L := '[' :: (ts ++ (']' :: ' ' :: '[' ::
    (lv ++ (']' :: ' ' :: '[' :: (us ++ (']' :: ' ' :: msg)))))) with hL
  have h0 : startsWithChar L '[' = true := rfl
  have e1 : pyFindChar L ']' 1 = ((1 + ts.length : Nat) : Int) := by
    apply pyFindChar_exact L ']' 1 ['['] ts
      (' ' :: '[' :: (lv ++ (']' :: ' ' :: '[' :: (us ++ (']' :: ' ' :: msg)))))
      (by rw [hL]; simp) (by simp) hts
  have e2 : pyFindChar L '[' (((1 + ts.length : Nat) : Int) + 1)
      = ((3 + ts.length : Nat) : Int) := by
    have := pyFindChar_exact L '[' (((1 + ts.length : Nat) : Int) + 1)
      ('[' :: (ts ++ [']'])) [' ']
      (lv ++ (']' :: ' ' :: '[' :: (us ++ (']' :: ' ' :: msg))))
      (by rw [hL]; simp) (by push_cast; simp; omega) (by simp)
    rw [this]
    congr 1
    simp
    omega
  have e3 : pyFindChar L ']' (((3 + ts.length : Nat) : Int) + 1)
      = ((4 + ts.length + lv.length : Nat) : Int) := by
    have := pyFindChar_exact L ']' (((3 + ts.length : Nat) : Int) + 1)
      ('[' :: (ts ++ (']' :: ' ' :: ['[']))) lv
      (' ' :: '[' :: (us ++ (']' :: ' ' :: msg)))
      (by rw [hL]; simp) (by push_cast; simp; omega) hlv
    rw [this]
    congr 1
    simp
    omega
  have e4 : pySlice L 1 ((1 + ts.length : Nat) : Int) = ts := by
    apply pySlice_exact L 1 _ ['['] ts
      (']' :: ' ' :: '[' :: (lv ++ (']' :: ' ' :: '[' :: (us ++ (']' :: ' ' :: msg)))))
      (by rw [hL]; simp) (by simp) (by simp)
  have e5 : pySlice L (((3 + ts.length : Nat) : Int) + 1)
      ((4 + ts.length + lv.length : Nat) : Int) = lv := by
    apply pySlice_exact L _ _ ('[' :: (ts ++ (']' :: ' ' :: ['[']))) lv
      (']' :: ' ' :: '[' :: (us ++ (']' :: ' ' :: msg)))
      (by rw [hL]; simp) (by push_cast; simp; omega) (by push_cast; simp; omega)
  have e6 : pySliceFrom L (((4 + ts.length + lv.length : Nat) : Int) + 1)
      = ' ' :: '[' :: (us ++ (']' :: ' ' :: msg)) := by
    apply pySliceFrom_exact L _ ('[' :: (ts ++ (']' :: ' ' :: '[' :: (lv ++ [']']))))
      (' ' :: '[' :: (us ++ (']' :: ' ' :: msg)))
      (by rw [hL]; simp) (by push_cast; simp; omega)
  have e7 : pyStrip (' ' :: '[' :: (us ++ (']' :: ' ' :: msg)))
      = '[' :: (us ++ (']' :: RM)) := by
    rw [pyStrip_cons_ws ' ' _ (by decide), pyStrip_cons '[' _ (by decide)]
    have h9 : rstripChars (']' :: ' ' :: msg) = ']' :: RM := by
      rw [rstripChars_cons ']' _ (by decide), hRM]
    rw [rstripChars_append us (']' :: ' ' :: msg) (by rw [h9]; simp), h9]
  have e8 : startsWithChar ('[' :: (us ++ (']' :: RM))) '[' = true := rfl
  have e9 : pyFindChar ('[' :: (us ++ (']' :: RM))) ']' 1
      = ((1 + us.length : Nat) : Int) := by
    apply pyFindChar_exact _ ']' 1 ['['] us RM (by simp) (by simp) hus
  have e10 : pySlice ('[' :: (us ++ (']' :: RM))) 1 ((1 + us.length : Nat) : Int)
      = us := by
    apply pySlice_exact _ 1 _ ['['] us (']' :: RM) (by simp) (by simp) (by simp)
  have e11 : pySliceFrom ('[' :: (us ++ (']' :: RM))) (((1 + us.length : Nat) : Int) + 1)
      = RM := by
    apply pySliceFrom_exact _ _ ('[' :: (us ++ [']'])) RM (by simp)
      (by push_cast; simp; omega)
  have e12 : pyStrip RM = pyStrip msg := by
    rw [hRM, pyStrip_rstripChars, pyStrip_cons_ws ' ' _ (by decide)]
  simp only [parseLogLineChars, h0, Bool.not_true, e1, e2, e3, e4, e5, e6, e7, e8,
    e9, e10, e11, e12, if_false, Bool.false_eq_true]
  simp


theorem parseLogLineChars_isSome (l : List Char) :
    (parseLogLineChars l).isSome = startsWithChar l '[' := by
  unfold parseLogLineChars
  cases h : startsWithChar l '['
  · rw [if_pos (by simp [h])]
    rfl
  · rw [if_neg (by simp [h])]
    have gen : ∀ (b : Bool) (x y : List (List Char)),
        (if b = true then some x else some y).isSome = true := by
      intro b x y
      cases b <;> rfl
    exact gen _ _ _

theorem parseLogLine_isSome (s : String) :
    (parseLogLine s).isSome = startsWithChar s.data '[' := by
  have hks := parseLogLineChars_isSome s.data
  unfold parseLogLine
  cases ho : parseLogLineChars s.data with
  | none => rw [ho] at hks; simpa using hks
  | some v => rw [ho] at hks; simpa using hks

theorem keep_isSome (l : String) :
    (if pyStripStr l = "" ∨ startsWithStr (pyStripStr l) "===" then none
     else parseLogLine (pyStripStr l)).isSome
      = startsWithChar (pyStrip l.data) '[' := by
  cases hs : pyStrip l.data with
  | nil =>
    have h1 : pyStripStr l = "" := by unfold pyStripStr; rw [hs]; rfl
    simp [h1, startsWithChar]
  | cons c t =>
    have h1 : pyStripStr l = (c :: t).asString := by unfold pyStripStr; rw [hs]
    have hdata : (pyStripStr l).data = c :: t := by rw [h1]; rfl
    have h2 : ¬ (pyStripStr l = "") := by
      rw [h1]
      intro e
      have h2a : ((c :: t).asString).data = ("" : String).data := by rw [e]
      simp [List.asString] at h2a
    by_cases hc : c = '['
    · subst hc
      have h3 : startsWithStr (pyStripStr l) "===" = false := by
        unfold startsWithStr
        rw [hdata]
        rfl
      have h4 : (parseLogLine (pyStripStr l)).isSome = true := by
        rw [parseLogLine_isSome, hdata]
        rfl
      simp [h2, h3, h4, startsWithChar]
    · have h5 : startsWithChar (c :: t) '[' = false := by
        simp [startsWithChar, hc]
      by_cases hcond : (pyStripStr l = "" ∨ startsWithStr (pyStripStr l) "===" = true)
      · simp [hcond, h5]
      · simp only [hcond, if_false]
        rw [parseLogLine_isSome, hdata, h5]

theorem length_filterMap_eq_countP {α β : Type} (f : α → Option β) (p : α → Bool)
    (h : ∀ a, (f a).isSome = p a) (l : List α) :
    (l.filterMap f).length = l.countP p := by
  induction l with
  | nil => rfl
  | cons a t ih =>
    rw [List.countP_cons]
    cases hv : f a with
    | none =>
      have hp := h a
      rw [hv] at hp
      simp only [Option.isSome_none] at hp
      rw [List.filterMap_cons_none hv, ih, ← hp]
      simp
    | some v =>
      have hp := h a
      rw [hv] at hp
      simp only [Option.isSome_some] at hp
      rw [List.filterMap_cons_some hv, List.length_cons, ih, ← hp]
      simp

theorem parseLogsToCsv_length (lines : List String) :
    (parseLogsToCsv lines).length
      = 1 + lines.countP (fun l => startsWithChar (pyStrip l.data) '[') := by
  unfold parseLogsToCsv
  rw [List.length_cons,
    length_filterMap_eq_countP _ _ (fun l => keep_isSome l) lines]
  omega


/-! ## Claims about the log export -/

/-- Claim C9, counterexample: a log holding the === header line and the
malformed line [x contains zero well-formed entries, yet export yields 2
rows instead of the required 0 + 1 = 1: a line that starts with an opening
bracket is never skipped, however malformed, and contributes a garbage row. -/
theorem C9_malformed_line_cex :
    (parseLogsToCsv ["=== System Logs ===\n", "[x\n"]).length = 2
    ∧ parseLogLine "[x" = some ["", "", "", "[x"]
    ∧ (2 : Nat) ≠ 0 + 1 := by
  refine ⟨by decide, by decide, by decide⟩

/-- Claim C9 as amended: export always yields one header row with columns
Timestamp, Level, Username, Message plus exactly one row per log line whose
stripped form starts with an opening bracket: blank lines, === lines and
lines not starting with an opening bracket are skipped without failure,
while every line the logger writes in the well-formed entry format (fields
free of closing brackets) parses to exactly its four fields, the message
stripped. -/
theorem C9_export_row_count (lines : List String) (ts lv us msg : List Char)
    (hts : ']' ∉ ts) (hlv : ']' ∉ lv) (hus : ']' ∉ us) :
    (parseLogsToCsv lines).length
      = 1 + lines.countP (fun l => startsWithChar (pyStrip l.data) '[')
    ∧ (parseLogsToCsv lines).head?
        = some ["Timestamp", "Level", "Username", "Message"]
    ∧ parseLogLineChars ('[' :: (ts ++ (']' :: ' ' :: '[' ::
          (lv ++ (']' :: ' ' :: '[' :: (us ++ (']' :: ' ' :: msg)))))))
        = some [ts, lv, us, pyStrip msg] :=
  ⟨parseLogsToCsv_length lines, rfl, parseLogLineChars_entry ts lv us msg hts hlv hus⟩

/-- Witness for C9 on a four-line log: header line, one well-formed entry,
a blank line and a plain-text line, together with the entry round trip at
concrete field values. -/
theorem C9_export_row_count_witness :
    ((']' ∉ ("2024-01-01 10:00:00").data) ∧ (']' ∉ ("COMMAND").data)
      ∧ (']' ∉ ("admin").data))
    ∧ (parseLogsToCsv ["=== System Logs ===\n",
          "[2024-01-01 10:00:00] [COMMAND] [admin] hello\n", "\n", "plain\n"]).length
        = 1 + (["=== System Logs ===\n",
            "[2024-01-01 10:00:00] [COMMAND] [admin] hello\n", "\n",
            "plain\n"].countP (fun l => startsWithChar (pyStrip l.data) '['))
    ∧ (parseLogsToCsv ["=== System Logs ===\n",
          "[2024-01-01 10:00:00] [COMMAND] [admin] hello\n", "\n", "plain\n"]).head?
        = some ["Timestamp", "Level", "Username", "Message"]
    ∧ parseLogLineChars ('[' :: (("2024-01-01 10:00:00").data ++ (']' :: ' ' :: '[' ::
          (("COMMAND").data ++ (']' :: ' ' :: '[' ::
            (("admin").data ++ (']' :: ' ' :: ("hello").data)))))))
        = some [("2024-01-01 10:00:00").data, ("COMMAND").data, ("admin").data,
            pyStrip ("hello").data] := by
  have h := C9_export_row_count ["=== System Logs ===\n",
      "[2024-01-01 10:00:00] [COMMAND] [admin] hello\n", "\n", "plain\n"]
    ("2024-01-01 10:00:00").data ("COMMAND").data ("admin").data ("hello").data
    (by decide) (by decide) (by decide)
  exact ⟨⟨by decide, by decide, by decide⟩, h.1, h.2.1, h.2.2⟩

end ACS
